import Mathlib

/-!
Verification development for the upm CurieImu Firmata driver
(src/src/curieimu/curieimu.hpp).

The repository ships only the class header: the sub-command byte
constants, the IMUDataItem record, the public API signatures and the
private state (three event queues, the accel/gyro/motion arrays, the
mutex plus condition variable pair).  The implementation file is not
part of the sources, so the behavior of the member functions is
modelled here from the specification document, while the constants,
the data shapes and the declared signatures are taken from the header.
-/

/-! ## Constants from the header (curieimu.hpp, lines 57-66) -/

def FIRMATA_START_SYSEX : Nat := 0xF0

def FIRMATA_END_SYSEX : Nat := 0xF7

def FIRMATA_CURIE_IMU : Nat := 0x11

def FIRMATA_CURIE_IMU_READ_ACCEL : Nat := 0x00

def FIRMATA_CURIE_IMU_READ_GYRO : Nat := 0x01

def FIRMATA_CURIE_IMU_READ_TEMP : Nat := 0x02

def FIRMATA_CURIE_IMU_SHOCK_DETECT : Nat := 0x03

def FIRMATA_CURIE_IMU_STEP_COUNTER : Nat := 0x04

def FIRMATA_CURIE_IMU_TAP_DETECT : Nat := 0x05

def FIRMATA_CURIE_IMU_READ_MOTION : Nat := 0x06

/-! ## Data model -/

/-- IMUDataItem from the header: the axis and direction fields of a
shock or tap notification (int axis; int direction). -/
structure IMUDataItem where
  axis : Int
  direction : Int
deriving DecidableEq, Repr

/-- Interpret a natural number as a signed 16-bit value
(two's complement on 16 bits), the int16_t of the source. -/
def toInt16 (n : Nat) : Int :=
  let m := n % 65536
  if m < 32768 then (m : Int) else (m : Int) - 65536

/-- Modelled from the spec: the read responses carry big-endian-paired
16-bit signed values, two payload bytes per output value.  The byte
pair (hi, lo) decodes to the signed 16-bit value hi * 256 + lo; a
trailing unpaired byte decodes to nothing. -/
def decodePairs : List Nat → List Int
  | [] => []
  | [_] => []
  | hi :: lo :: rest => toInt16 (hi * 256 + lo) :: decodePairs rest

/-- The FIFO event queues of the driver (m_shockData, m_stepData,
m_tapData are std::queue).  A queue is a list with its front at the
head; push appends at the back. -/
def queuePush {α : Type} (q : List α) (x : α) : List α := q ++ [x]

/-- Non-blocking pop: the front element and the rest, or none when the
queue is empty. -/
def queueTryPop {α : Type} : List α → Option (α × List α)
  | [] => none
  | x :: rest => some (x, rest)

/-- Non-blocking pending check on a queue. -/
def hasPending {α : Type} (q : List α) : Bool := !q.isEmpty

/-- Push a whole list of events in order. -/
def pushAll {α : Type} (q : List α) (xs : List α) : List α :=
  List.foldl queuePush q xs

/-- Pop up to n times, collecting the popped elements in order and
returning the remaining queue. -/
def popN {α : Type} : Nat → List α → List α × List α
  | 0, q => ([], q)
  | Nat.succ n, q =>
    match queueTryPop q with
    | none => ([], q)
    | some (x, q2) =>
      let r := popN n q2
      (x :: r.1, r.2)

/-- The driver state declared in the header: the three sensor arrays
(int16_t accel[3], gyro[3], motion[6]), the temperature scalar, the
three event queues, plus the modelled pieces: the subplatform offset
taken by the constructor and a flag recording whether
signalResponseReady was invoked for the response being processed. -/
structure CurieImuState where
  subplatformOffset : Int
  accel : List Int
  gyro : List Int
  motion : List Int
  temperature : Int
  m_shockData : List IMUDataItem
  m_stepData : List Int
  m_tapData : List IMUDataItem
  gateSignaled : Bool
deriving DecidableEq, Repr

/-- Modelled from the spec: the constructor CurieImu(int
subplatform_offset = 512) records the offset; the queues start empty
and the gate starts unsignaled.  The sensor arrays are modelled as
zero-initialized at their declared sizes (3, 3, 6). -/
def CurieImuCtor (subplatform_offset : Int) : CurieImuState :=
  { subplatformOffset := subplatform_offset
    accel := [0, 0, 0]
    gyro := [0, 0, 0]
    motion := [0, 0, 0, 0, 0, 0]
    temperature := 0
    m_shockData := []
    m_stepData := []
    m_tapData := []
    gateSignaled := false }

/-- Construction with no argument: the header declares the default
subplatform offset 512 (curieimu.hpp line 81). -/
def CurieImuDefaultCtor : CurieImuState := CurieImuCtor 512

/-- Modelled from the spec: a shock or tap payload carries the axis
and the direction fields in its first two bytes. -/
def decodeDataItem (p : List Nat) : IMUDataItem :=
  { axis := Int.ofNat (p.headD 0)
    direction := Int.ofNat ((p.drop 1).headD 0) }

/-- Modelled from the spec: a step-counter payload carries the step
count as one big-endian-paired 16-bit value. -/
def decodeStepCount (p : List Nat) : Int := (decodePairs p).headD 0

/-- Modelled from the spec: processResponse / setResults, the missing
response decoder and dispatcher.  It inspects the leading sub-command
byte of the de-framed buffer and routes: the four read kinds decode
byte pairs into the matching array or scalar state (3 accel values, 3
gyro values, 6 motion values, 1 temperature value) and signal the
gate; the three notification kinds construct an event record and push
it onto the matching queue without signaling; any other sub-command is
discarded silently. -/
def processResponse (s : CurieImuState) (buf : List Nat) : CurieImuState :=
  match buf with
  | [] => s
  | cmd :: payload =>
    if cmd = FIRMATA_CURIE_IMU_READ_ACCEL then
      { s with accel := (decodePairs payload).take 3, gateSignaled := true }
    else if cmd = FIRMATA_CURIE_IMU_READ_GYRO then
      { s with gyro := (decodePairs payload).take 3, gateSignaled := true }
    else if cmd = FIRMATA_CURIE_IMU_READ_TEMP then
      { s with temperature := (decodePairs payload).headD s.temperature,
               gateSignaled := true }
    else if cmd = FIRMATA_CURIE_IMU_READ_MOTION then
      { s with motion := (decodePairs payload).take 6, gateSignaled := true }
    else if cmd = FIRMATA_CURIE_IMU_SHOCK_DETECT then
      { s with m_shockData := queuePush s.m_shockData (decodeDataItem payload) }
    else if cmd = FIRMATA_CURIE_IMU_STEP_COUNTER then
      { s with m_stepData := queuePush s.m_stepData (decodeStepCount payload) }
    else if cmd = FIRMATA_CURIE_IMU_TAP_DETECT then
      { s with m_tapData := queuePush s.m_tapData (decodeDataItem payload) }
    else s

/-- The known sub-command bytes of the protocol. -/
def knownSubCommands : List Nat :=
  [FIRMATA_CURIE_IMU_READ_ACCEL, FIRMATA_CURIE_IMU_READ_GYRO,
   FIRMATA_CURIE_IMU_READ_TEMP, FIRMATA_CURIE_IMU_SHOCK_DETECT,
   FIRMATA_CURIE_IMU_STEP_COUNTER, FIRMATA_CURIE_IMU_TAP_DETECT,
   FIRMATA_CURIE_IMU_READ_MOTION]

/-- Errors of the public API. -/
inductive ImuError
  | EmptyQueue
deriving DecidableEq, Repr

/-- Modelled from the spec: getShockDetectData does a non-blocking pop
of the shock queue, failing with EmptyQueue on an empty queue. -/
def getShockDetectData (s : CurieImuState) :
    Except ImuError (IMUDataItem × CurieImuState) :=
  match queueTryPop s.m_shockData with
  | none => Except.error ImuError.EmptyQueue
  | some (item, rest) => Except.ok (item, { s with m_shockData := rest })

/-- Modelled from the spec: getStepCount does a non-blocking pop of
the step queue, failing with EmptyQueue on an empty queue. -/
def getStepCount (s : CurieImuState) :
    Except ImuError (Int × CurieImuState) :=
  match queueTryPop s.m_stepData with
  | none => Except.error ImuError.EmptyQueue
  | some (c, rest) => Except.ok (c, { s with m_stepData := rest })

/-- Modelled from the spec: getTapDetectData does a non-blocking pop
of the tap queue, failing with EmptyQueue on an empty queue. -/
def getTapDetectData (s : CurieImuState) :
    Except ImuError (IMUDataItem × CurieImuState) :=
  match queueTryPop s.m_tapData with
  | none => Except.error ImuError.EmptyQueue
  | some (item, rest) => Except.ok (item, { s with m_tapData := rest })

/-- Modelled from the spec: isShockDetected is a non-blocking pending
check on the shock queue. -/
def isShockDetected (s : CurieImuState) : Bool := hasPending s.m_shockData

/-- Modelled from the spec: isStepDetected is a non-blocking pending
check on the step queue. -/
def isStepDetected (s : CurieImuState) : Bool := hasPending s.m_stepData

/-- Modelled from the spec: isTapDetected is a non-blocking pending
check on the tap queue. -/
def isTapDetected (s : CurieImuState) : Bool := hasPending s.m_tapData

/-! ## Command encoder -/

/-- The sub-commands the encoder supports: the four reads and the
three notification toggles. -/
inductive ImuSubCommand
  | readAccel
  | readGyro
  | readTemp
  | readMotion
  | shockDetect
  | stepCounter
  | tapDetect
deriving DecidableEq, Repr

/-- The sub-command byte of each supported sub-command, matching the
header constants. -/
def subCommandByte : ImuSubCommand → Nat
  | ImuSubCommand.readAccel => FIRMATA_CURIE_IMU_READ_ACCEL
  | ImuSubCommand.readGyro => FIRMATA_CURIE_IMU_READ_GYRO
  | ImuSubCommand.readTemp => FIRMATA_CURIE_IMU_READ_TEMP
  | ImuSubCommand.shockDetect => FIRMATA_CURIE_IMU_SHOCK_DETECT
  | ImuSubCommand.stepCounter => FIRMATA_CURIE_IMU_STEP_COUNTER
  | ImuSubCommand.tapDetect => FIRMATA_CURIE_IMU_TAP_DETECT
  | ImuSubCommand.readMotion => FIRMATA_CURIE_IMU_READ_MOTION

/-- Modelled from the spec: the missing command encoder is a pure
function producing the payload bytes handed to the transport: the
fixed leading IMU-device identifier byte (0x11), the sub-command byte,
then the optional arguments. -/
def buildCommand (sc : ImuSubCommand) (extraArgs : List Nat) : List Nat :=
  FIRMATA_CURIE_IMU :: subCommandByte sc :: extraArgs

/-- Modelled from the spec: enableShockDetection encodes the toggle
command with the enable flag as its one argument; fire and forget, no
state touched. -/
def enableShockDetection (enable : Bool) : List Nat :=
  buildCommand ImuSubCommand.shockDetect [if enable then 1 else 0]

/-- Modelled from the spec: enableStepCounter encodes the toggle
command with the enable flag as its one argument. -/
def enableStepCounter (enable : Bool) : List Nat :=
  buildCommand ImuSubCommand.stepCounter [if enable then 1 else 0]

/-- Modelled from the spec: enableTapDetection encodes the toggle
command with the enable flag as its one argument. -/
def enableTapDetection (enable : Bool) : List Nat :=
  buildCommand ImuSubCommand.tapDetect [if enable then 1 else 0]

/-! ## Synchronization gate -/

/-- Modelled from the spec: the state of the mutex plus condition
variable rendezvous (m_responseLock, m_responseCond).  The protocol is
single slot: at most one caller is blocked at a time
(waiterBlocked), and responseWritten records whether the response
buffer has been written since the current wait began. -/
structure Gate where
  waiterBlocked : Bool
  responseWritten : Bool
deriving DecidableEq, Repr

/-- Modelled from the spec: signalResponseReady (proceed) wakes the
one blocked waiter when there is one; it only clears the blocked flag,
so on a gate with no blocked waiter it changes nothing. -/
def signalResponseReady (g : Gate) : Gate := { g with waiterBlocked := false }

/-- Modelled from the spec: the wait loop of waitForResponse, run over
the sequence of gate states observed at successive wakeups, spurious
ones included.  The waiter returns at the first wakeup at which the
response buffer has been written since the wait began; a wakeup
without that predicate loops back into the wait. -/
def waitForResponseLoop : List Gate → Option Gate
  | [] => none
  | g :: rest =>
    if g.responseWritten then some g else waitForResponseLoop rest

/-! ## Public blocking reads and the pointer they return -/

/-- The value returned by getAccel, getGyro and getMotion in the
header is int16_t*: a pointer into the private arrays of the object.
This type names the three possible targets of such a pointer. -/
inductive SensorPtr
  | accelPtr
  | gyroPtr
  | motionPtr
deriving DecidableEq, Repr

/-- Dereference a returned sensor pointer against the current state of
the object: the pointer always shows the current contents of the
internal array it aliases. -/
def derefPtr (s : CurieImuState) : SensorPtr → List Int
  | SensorPtr.accelPtr => s.accel
  | SensorPtr.gyroPtr => s.gyro
  | SensorPtr.motionPtr => s.motion

/-- Modelled from the spec: getAccel sends the READ_ACCEL command,
blocks until the decoder has populated the accel array from the
response payload delivered by the transport, and returns the int16_t*
pointer into the internal accel array (the aliasing the spec flags in
its design notes).  The transport response payload is a parameter. -/
def getAccel (s : CurieImuState) (response : List Nat) :
    SensorPtr × CurieImuState :=
  (SensorPtr.accelPtr,
   processResponse s (FIRMATA_CURIE_IMU_READ_ACCEL :: response))

/-- Modelled from the spec: getGyro, as getAccel but for the gyro
array. -/
def getGyro (s : CurieImuState) (response : List Nat) :
    SensorPtr × CurieImuState :=
  (SensorPtr.gyroPtr,
   processResponse s (FIRMATA_CURIE_IMU_READ_GYRO :: response))

/-- Modelled from the spec: getMotion, as getAccel but for the motion
array. -/
def getMotion (s : CurieImuState) (response : List Nat) :
    SensorPtr × CurieImuState :=
  (SensorPtr.motionPtr,
   processResponse s (FIRMATA_CURIE_IMU_READ_MOTION :: response))

/-- Modelled from the spec: getTemperature returns the decoded
temperature scalar by value (the header return type is int16_t, not a
pointer). -/
def getTemperature (s : CurieImuState) (response : List Nat) :
    Int × CurieImuState :=
  let s2 := processResponse s (FIRMATA_CURIE_IMU_READ_TEMP :: response)
  (s2.temperature, s2)

/-- A driver state with one pending event in each queue, used to
exercise the successful pop paths. -/
def sampleLoadedState : CurieImuState :=
  { CurieImuCtor 512 with
      m_shockData := [{ axis := 0, direction := 1 }]
      m_stepData := [5]
      m_tapData := [{ axis := 2, direction := -1 }] }

/-! ## Helper lemmas -/

theorem waitForResponseLoop_written :
    ∀ (trace : List Gate) (g : Gate),
      waitForResponseLoop trace = some g → g.responseWritten = true
  | [], g => by simp [waitForResponseLoop]
  | t :: rest, g => by
    simp only [waitForResponseLoop]
    by_cases h : t.responseWritten = true
    · rw [if_pos h]
      intro hw
      cases hw
      exact h
    · rw [if_neg h]
      exact waitForResponseLoop_written rest g

theorem processResponse_offset (s : CurieImuState) (buf : List Nat) :
    (processResponse s buf).subplatformOffset = s.subplatformOffset := by
  cases buf with
  | nil => rfl
  | cons cmd payload =>
    simp only [processResponse]
    split_ifs <;> rfl

theorem getShockDetectData_offset (s : CurieImuState) (x : IMUDataItem)
    (s2 : CurieImuState) (h : getShockDetectData s = Except.ok (x, s2)) :
    s2.subplatformOffset = s.subplatformOffset := by
  unfold getShockDetectData at h
  cases hq : s.m_shockData with
  | nil => rw [hq] at h; simp [queueTryPop] at h
  | cons a rest =>
    rw [hq] at h
    simp only [queueTryPop] at h
    cases h
    rfl

theorem getStepCount_offset (s : CurieImuState) (c : Int)
    (s2 : CurieImuState) (h : getStepCount s = Except.ok (c, s2)) :
    s2.subplatformOffset = s.subplatformOffset := by
  unfold getStepCount at h
  cases hq : s.m_stepData with
  | nil => rw [hq] at h; simp [queueTryPop] at h
  | cons a rest =>
    rw [hq] at h
    simp only [queueTryPop] at h
    cases h
    rfl

theorem getTapDetectData_offset (s : CurieImuState) (x : IMUDataItem)
    (s2 : CurieImuState) (h : getTapDetectData s = Except.ok (x, s2)) :
    s2.subplatformOffset = s.subplatformOffset := by
  unfold getTapDetectData at h
  cases hq : s.m_tapData with
  | nil => rw [hq] at h; simp [queueTryPop] at h
  | cons a rest =>
    rw [hq] at h
    simp only [queueTryPop] at h
    cases h
    rfl

theorem decodePairs_length : ∀ p : List Nat, (decodePairs p).length = p.length / 2
  | [] => rfl
  | [_] => by simp [decodePairs]
  | _ :: lo :: rest => by
    simp only [decodePairs, List.length_cons, decodePairs_length rest]
    omega

theorem pushAll_eq_append {α : Type} (xs : List α) :
    ∀ q : List α, pushAll q xs = q ++ xs := by
  induction xs with
  | nil => intro q; simp [pushAll]
  | cons x xs ih =>
    intro q
    simp only [pushAll, List.foldl_cons] at *
    rw [ih (queuePush q x)]
    simp [queuePush]

theorem popN_all {α : Type} : ∀ l : List α, popN l.length l = (l, []) := by
  intro l
  induction l with
  | nil => rfl
  | cons x xs ih =>
    simp only [List.length_cons, popN, queueTryPop, ih]

/-! ## Claim theorems -/

/-- Claim C1: a response buffer whose leading sub-command byte is
READ_ACCEL, READ_GYRO, READ_MOTION or READ_TEMP has its remaining
bytes decoded as pairs of payload bytes into 16-bit signed values: 3
values into the accel state, 3 into the gyro state, 6 into the motion
state, 1 temperature scalar; the Synchronization Gate is then
signaled. -/
theorem curieimu_read_responses_decode_and_signal
    (s : CurieImuState) (pa pg pm pt : List Nat)
    (ha : pa.length = 6) (hg : pg.length = 6)
    (hm : pm.length = 12) (ht : pt.length = 2) :
    processResponse s (FIRMATA_CURIE_IMU_READ_ACCEL :: pa) =
      { s with accel := decodePairs pa, gateSignaled := true } ∧
    (decodePairs pa).length = 3 ∧
    processResponse s (FIRMATA_CURIE_IMU_READ_GYRO :: pg) =
      { s with gyro := decodePairs pg, gateSignaled := true } ∧
    (decodePairs pg).length = 3 ∧
    processResponse s (FIRMATA_CURIE_IMU_READ_MOTION :: pm) =
      { s with motion := decodePairs pm, gateSignaled := true } ∧
    (decodePairs pm).length = 6 ∧
    processResponse s (FIRMATA_CURIE_IMU_READ_TEMP :: pt) =
      { s with temperature := (decodePairs pt).headD 0, gateSignaled := true } ∧
    (decodePairs pt).length = 1 := by
  have la : (decodePairs pa).length = 3 := by rw [decodePairs_length, ha]
  have lg : (decodePairs pg).length = 3 := by rw [decodePairs_length, hg]
  have lm : (decodePairs pm).length = 6 := by rw [decodePairs_length, hm]
  have lt : (decodePairs pt).length = 1 := by rw [decodePairs_length, ht]
  have ta : (decodePairs pa).take 3 = decodePairs pa :=
    List.take_of_length_le (le_of_eq la)
  have tg : (decodePairs pg).take 3 = decodePairs pg :=
    List.take_of_length_le (le_of_eq lg)
  have tm : (decodePairs pm).take 6 = decodePairs pm :=
    List.take_of_length_le (le_of_eq lm)
  refine ⟨?_, la, ?_, lg, ?_, lm, ?_, lt⟩
  · simp [processResponse, FIRMATA_CURIE_IMU_READ_ACCEL, ta]
  · simp [processResponse, FIRMATA_CURIE_IMU_READ_ACCEL,
          FIRMATA_CURIE_IMU_READ_GYRO, tg]
  · simp [processResponse, FIRMATA_CURIE_IMU_READ_ACCEL,
          FIRMATA_CURIE_IMU_READ_GYRO, FIRMATA_CURIE_IMU_READ_TEMP,
          FIRMATA_CURIE_IMU_READ_MOTION, FIRMATA_CURIE_IMU_SHOCK_DETECT,
          FIRMATA_CURIE_IMU_STEP_COUNTER, FIRMATA_CURIE_IMU_TAP_DETECT, tm]
  · obtain ⟨v, hv⟩ := List.length_eq_one.mp lt
    simp [processResponse, FIRMATA_CURIE_IMU_READ_ACCEL,
          FIRMATA_CURIE_IMU_READ_GYRO, FIRMATA_CURIE_IMU_READ_TEMP, hv]

/-- Witness for C1 at concrete buffers. -/
theorem curieimu_read_responses_decode_and_signal_witness :
    ([0, 1, 0, 2, 0, 3] : List Nat).length = 6 ∧
    ([0, 4, 0, 5, 0, 6] : List Nat).length = 6 ∧
    ([0, 1, 0, 2, 0, 3, 0, 4, 0, 5, 0, 6] : List Nat).length = 12 ∧
    ([0, 37] : List Nat).length = 2 ∧
    (processResponse CurieImuDefaultCtor
        (FIRMATA_CURIE_IMU_READ_ACCEL :: [0, 1, 0, 2, 0, 3]) =
      { CurieImuDefaultCtor with
          accel := decodePairs [0, 1, 0, 2, 0, 3], gateSignaled := true } ∧
    (decodePairs ([0, 1, 0, 2, 0, 3] : List Nat)).length = 3 ∧
    processResponse CurieImuDefaultCtor
        (FIRMATA_CURIE_IMU_READ_GYRO :: [0, 4, 0, 5, 0, 6]) =
      { CurieImuDefaultCtor with
          gyro := decodePairs [0, 4, 0, 5, 0, 6], gateSignaled := true } ∧
    (decodePairs ([0, 4, 0, 5, 0, 6] : List Nat)).length = 3 ∧
    processResponse CurieImuDefaultCtor
        (FIRMATA_CURIE_IMU_READ_MOTION ::
          [0, 1, 0, 2, 0, 3, 0, 4, 0, 5, 0, 6]) =
      { CurieImuDefaultCtor with
          motion := decodePairs [0, 1, 0, 2, 0, 3, 0, 4, 0, 5, 0, 6],
          gateSignaled := true } ∧
    (decodePairs ([0, 1, 0, 2, 0, 3, 0, 4, 0, 5, 0, 6] : List Nat)).length = 6 ∧
    processResponse CurieImuDefaultCtor
        (FIRMATA_CURIE_IMU_READ_TEMP :: [0, 37]) =
      { CurieImuDefaultCtor with
          temperature := (decodePairs [0, 37]).headD 0, gateSignaled := true } ∧
    (decodePairs ([0, 37] : List Nat)).length = 1) :=
  ⟨by decide, by decide, by decide, by decide,
   curieimu_read_responses_decode_and_signal CurieImuDefaultCtor
     [0, 1, 0, 2, 0, 3] [0, 4, 0, 5, 0, 6]
     [0, 1, 0, 2, 0, 3, 0, 4, 0, 5, 0, 6] [0, 37]
     (by decide) (by decide) (by decide) (by decide)⟩

/-- Claim C2: a response buffer whose leading sub-command byte is
SHOCK_DETECT, STEP_COUNTER or TAP_DETECT makes the decoder construct
the matching event record (axis plus direction for shock and tap, an
integer count for step) and push it onto the matching queue, and the
Synchronization Gate is not signaled. -/
theorem curieimu_notifications_enqueue_no_signal
    (s : CurieImuState) (p : List Nat) :
    processResponse s (FIRMATA_CURIE_IMU_SHOCK_DETECT :: p) =
      { s with m_shockData := queuePush s.m_shockData (decodeDataItem p) } ∧
    processResponse s (FIRMATA_CURIE_IMU_STEP_COUNTER :: p) =
      { s with m_stepData := queuePush s.m_stepData (decodeStepCount p) } ∧
    processResponse s (FIRMATA_CURIE_IMU_TAP_DETECT :: p) =
      { s with m_tapData := queuePush s.m_tapData (decodeDataItem p) } ∧
    (processResponse s (FIRMATA_CURIE_IMU_SHOCK_DETECT :: p)).gateSignaled
      = s.gateSignaled ∧
    (processResponse s (FIRMATA_CURIE_IMU_STEP_COUNTER :: p)).gateSignaled
      = s.gateSignaled ∧
    (processResponse s (FIRMATA_CURIE_IMU_TAP_DETECT :: p)).gateSignaled
      = s.gateSignaled := by
  refine ⟨?_, ?_, ?_, ?_, ?_, ?_⟩ <;>
    simp [processResponse, FIRMATA_CURIE_IMU_READ_ACCEL,
          FIRMATA_CURIE_IMU_READ_GYRO, FIRMATA_CURIE_IMU_READ_TEMP,
          FIRMATA_CURIE_IMU_READ_MOTION, FIRMATA_CURIE_IMU_SHOCK_DETECT,
          FIRMATA_CURIE_IMU_STEP_COUNTER, FIRMATA_CURIE_IMU_TAP_DETECT]

/-- Claim C3: each pop called while its own matching queue is empty
fails with the explicit EmptyQueue error, whatever the other two
queues hold; the operations are total, so they neither block nor read
undefined data. -/
theorem curieimu_empty_queue_pop_errors (s1 s2 s3 : CurieImuState)
    (hs : s1.m_shockData = []) (hp : s2.m_stepData = [])
    (ht : s3.m_tapData = []) :
    getShockDetectData s1 = Except.error ImuError.EmptyQueue ∧
    getStepCount s2 = Except.error ImuError.EmptyQueue ∧
    getTapDetectData s3 = Except.error ImuError.EmptyQueue := by
  refine ⟨?_, ?_, ?_⟩ <;>
    simp [getShockDetectData, getStepCount, getTapDetectData,
          queueTryPop, hs, hp, ht]

/-- Witness for C3 on states whose matching queue is empty while the
other two queues are nonempty. -/
theorem curieimu_empty_queue_pop_errors_witness :
    ({ sampleLoadedState with m_shockData := [] }
       : CurieImuState).m_shockData = [] ∧
    ({ sampleLoadedState with m_stepData := [] }
       : CurieImuState).m_stepData = [] ∧
    ({ sampleLoadedState with m_tapData := [] }
       : CurieImuState).m_tapData = [] ∧
    (getShockDetectData { sampleLoadedState with m_shockData := [] }
        = Except.error ImuError.EmptyQueue ∧
     getStepCount { sampleLoadedState with m_stepData := [] }
        = Except.error ImuError.EmptyQueue ∧
     getTapDetectData { sampleLoadedState with m_tapData := [] }
        = Except.error ImuError.EmptyQueue) :=
  ⟨rfl, rfl, rfl,
   curieimu_empty_queue_pop_errors
     { sampleLoadedState with m_shockData := [] }
     { sampleLoadedState with m_stepData := [] }
     { sampleLoadedState with m_tapData := [] }
     rfl rfl rfl⟩

/-- Claim C5: a response buffer whose leading sub-command byte is none
of the seven known values is discarded silently: the decoder returns
with the sensor state, the queues and the gate all unchanged. -/
theorem curieimu_unknown_subcommand_discarded
    (s : CurieImuState) (cmd : Nat) (p : List Nat)
    (h : cmd ∉ knownSubCommands) :
    processResponse s (cmd :: p) = s := by
  simp only [knownSubCommands, FIRMATA_CURIE_IMU_READ_ACCEL,
    FIRMATA_CURIE_IMU_READ_GYRO, FIRMATA_CURIE_IMU_READ_TEMP,
    FIRMATA_CURIE_IMU_READ_MOTION, FIRMATA_CURIE_IMU_SHOCK_DETECT,
    FIRMATA_CURIE_IMU_STEP_COUNTER, FIRMATA_CURIE_IMU_TAP_DETECT,
    List.mem_cons, List.mem_singleton, not_or] at h
  obtain ⟨h0, h1, h2, h3, h4, h5, h6⟩ := h
  simp [processResponse, FIRMATA_CURIE_IMU_READ_ACCEL,
    FIRMATA_CURIE_IMU_READ_GYRO, FIRMATA_CURIE_IMU_READ_TEMP,
    FIRMATA_CURIE_IMU_READ_MOTION, FIRMATA_CURIE_IMU_SHOCK_DETECT,
    FIRMATA_CURIE_IMU_STEP_COUNTER, FIRMATA_CURIE_IMU_TAP_DETECT,
    h0, h1, h2, h3, h4, h5, h6]

/-- Witness for C5 at the unknown sub-command byte 0x07. -/
theorem curieimu_unknown_subcommand_discarded_witness :
    (7 : Nat) ∉ knownSubCommands ∧
    processResponse CurieImuDefaultCtor (7 :: [1, 2, 3])
      = CurieImuDefaultCtor :=
  ⟨by decide,
   curieimu_unknown_subcommand_discarded CurieImuDefaultCtor 7 [1, 2, 3]
     (by decide)⟩

/-- Claim C4 counterexample: the blocking reads do not return a
defensive copy.  getAccel returns the pointer to the internal accel
array, and a second getAccel overwrites the values visible through the
pointer returned by the first: after the two concrete reads below, the
first returned pointer shows [9, 8, 7], no longer the decoded
[1, 2, 3] it showed when it was returned. -/
theorem curieimu_pointer_aliasing_counterexample :
    (getAccel CurieImuDefaultCtor [0, 1, 0, 2, 0, 3]).1
      = SensorPtr.accelPtr ∧
    derefPtr (getAccel CurieImuDefaultCtor [0, 1, 0, 2, 0, 3]).2
        (getAccel CurieImuDefaultCtor [0, 1, 0, 2, 0, 3]).1 = [1, 2, 3] ∧
    derefPtr
        (getAccel (getAccel CurieImuDefaultCtor [0, 1, 0, 2, 0, 3]).2
          [0, 9, 0, 8, 0, 7]).2
        (getAccel CurieImuDefaultCtor [0, 1, 0, 2, 0, 3]).1 = [9, 8, 7] ∧
    ([9, 8, 7] : List Int) ≠ [1, 2, 3] := by decide

/-- Claim C4 amended: getAccel, getGyro and getMotion return the
int16_t* pointer into the internal array of their kind, and a later
read of the same kind overwrites the values visible through an earlier
returned pointer with the newly decoded values; only getTemperature
returns its reading by value. -/
theorem curieimu_reads_return_internal_pointer
    (s : CurieImuState) (p q : List Nat) :
    (getAccel s p).1 = SensorPtr.accelPtr ∧
    (getGyro s p).1 = SensorPtr.gyroPtr ∧
    (getMotion s p).1 = SensorPtr.motionPtr ∧
    derefPtr (getAccel (getAccel s p).2 q).2 (getAccel s p).1
      = (decodePairs q).take 3 ∧
    derefPtr (getGyro (getGyro s p).2 q).2 (getGyro s p).1
      = (decodePairs q).take 3 ∧
    derefPtr (getMotion (getMotion s p).2 q).2 (getMotion s p).1
      = (decodePairs q).take 6 ∧
    (getTemperature s p).1
      = (processResponse s (FIRMATA_CURIE_IMU_READ_TEMP :: p)).temperature := by
  refine ⟨rfl, rfl, rfl, ?_, ?_, ?_, rfl⟩ <;>
    simp [getAccel, getGyro, getMotion, derefPtr, processResponse,
          FIRMATA_CURIE_IMU_READ_ACCEL, FIRMATA_CURIE_IMU_READ_GYRO,
          FIRMATA_CURIE_IMU_READ_TEMP, FIRMATA_CURIE_IMU_READ_MOTION,
          FIRMATA_CURIE_IMU_SHOCK_DETECT, FIRMATA_CURIE_IMU_STEP_COUNTER,
          FIRMATA_CURIE_IMU_TAP_DETECT]

/-- Claim C6: for each event kind, pushing N events and then popping N
times yields exactly those events in FIFO order, and the (N+1)-th pop
reports EmptyQueue. -/
theorem curieimu_queue_fifo_roundtrip
    (shocks : List IMUDataItem) (steps : List Int)
    (taps : List IMUDataItem) (s : CurieImuState) :
    (popN shocks.length (pushAll [] shocks)).1 = shocks ∧
    getShockDetectData
        { s with m_shockData := (popN shocks.length (pushAll [] shocks)).2 }
      = Except.error ImuError.EmptyQueue ∧
    (popN steps.length (pushAll [] steps)).1 = steps ∧
    getStepCount
        { s with m_stepData := (popN steps.length (pushAll [] steps)).2 }
      = Except.error ImuError.EmptyQueue ∧
    (popN taps.length (pushAll [] taps)).1 = taps ∧
    getTapDetectData
        { s with m_tapData := (popN taps.length (pushAll [] taps)).2 }
      = Except.error ImuError.EmptyQueue := by
  have h1 : pushAll ([] : List IMUDataItem) shocks = shocks := by
    rw [pushAll_eq_append]; rfl
  have h2 : pushAll ([] : List Int) steps = steps := by
    rw [pushAll_eq_append]; rfl
  have h3 : pushAll ([] : List IMUDataItem) taps = taps := by
    rw [pushAll_eq_append]; rfl
  rw [h1, h2, h3, popN_all, popN_all, popN_all]
  exact ⟨rfl, rfl, rfl, rfl, rfl, rfl⟩

/-- Claim C7: each pending flag is false on a freshly constructed
driver, becomes true after a push of its kind, is unchanged by a push
of another kind, and does not depend on the contents of the other two
queues. -/
theorem curieimu_pending_flags (s : CurieImuState) (p : List Nat)
    (q1 : List Int) (q2 : List IMUDataItem) :
    isShockDetected CurieImuDefaultCtor = false ∧
    isStepDetected CurieImuDefaultCtor = false ∧
    isTapDetected CurieImuDefaultCtor = false ∧
    isShockDetected (processResponse s (FIRMATA_CURIE_IMU_SHOCK_DETECT :: p))
      = true ∧
    isStepDetected (processResponse s (FIRMATA_CURIE_IMU_STEP_COUNTER :: p))
      = true ∧
    isTapDetected (processResponse s (FIRMATA_CURIE_IMU_TAP_DETECT :: p))
      = true ∧
    isShockDetected (processResponse s (FIRMATA_CURIE_IMU_STEP_COUNTER :: p))
      = isShockDetected s ∧
    isStepDetected (processResponse s (FIRMATA_CURIE_IMU_TAP_DETECT :: p))
      = isStepDetected s ∧
    isTapDetected (processResponse s (FIRMATA_CURIE_IMU_SHOCK_DETECT :: p))
      = isTapDetected s ∧
    isShockDetected { s with m_stepData := q1, m_tapData := q2 }
      = isShockDetected s ∧
    isStepDetected { s with m_shockData := q2, m_tapData := q2 }
      = isStepDetected s ∧
    isTapDetected { s with m_shockData := q2, m_stepData := q1 }
      = isTapDetected s := by
  refine ⟨rfl, rfl, rfl, ?_, ?_, ?_, ?_, ?_, ?_, rfl, rfl, rfl⟩ <;>
    simp [isShockDetected, isStepDetected, isTapDetected, hasPending,
          queuePush, processResponse,
          FIRMATA_CURIE_IMU_READ_ACCEL, FIRMATA_CURIE_IMU_READ_GYRO,
          FIRMATA_CURIE_IMU_READ_TEMP, FIRMATA_CURIE_IMU_READ_MOTION,
          FIRMATA_CURIE_IMU_SHOCK_DETECT, FIRMATA_CURIE_IMU_STEP_COUNTER,
          FIRMATA_CURIE_IMU_TAP_DETECT]

/-- Claim C8: the command encoder is a pure total function; its output
starts with the fixed IMU-device identifier byte 0x11, followed by the
sub-command byte, followed by the arguments; the three notification
toggles encode the enable flag as the single argument byte. -/
theorem curieimu_buildCommand_shape
    (sc : ImuSubCommand) (args : List Nat) (b : Bool) :
    (buildCommand sc args).headD 0 = FIRMATA_CURIE_IMU ∧
    ((buildCommand sc args).drop 1).headD 0 = subCommandByte sc ∧
    (buildCommand sc args).drop 2 = args ∧
    (buildCommand sc args).length = args.length + 2 ∧
    enableShockDetection b
      = [FIRMATA_CURIE_IMU, FIRMATA_CURIE_IMU_SHOCK_DETECT,
         if b then 1 else 0] ∧
    enableStepCounter b
      = [FIRMATA_CURIE_IMU, FIRMATA_CURIE_IMU_STEP_COUNTER,
         if b then 1 else 0] ∧
    enableTapDetection b
      = [FIRMATA_CURIE_IMU, FIRMATA_CURIE_IMU_TAP_DETECT,
         if b then 1 else 0] := by
  refine ⟨rfl, rfl, rfl, ?_, ?_, ?_, ?_⟩ <;>
    simp [buildCommand, enableShockDetection, enableStepCounter,
          enableTapDetection, subCommandByte]

/-- Claim C9: signalResponseReady wakes the one blocked waiter when a
caller is blocked, is a no-op on the gate when none is blocked, and
the waitForResponse loop only returns at a wakeup at which the
response buffer has been written, so spurious wakeups are
tolerated. -/
theorem curieimu_gate_signal_and_wait
    (g1 g2 gw : Gate) (trace : List Gate)
    (_hb : g1.waiterBlocked = true) (hn : g2.waiterBlocked = false)
    (hw : waitForResponseLoop trace = some gw) :
    (signalResponseReady g1).waiterBlocked = false ∧
    signalResponseReady g2 = g2 ∧
    gw.responseWritten = true := by
  refine ⟨rfl, ?_, waitForResponseLoop_written trace gw hw⟩
  cases g2
  simp only [signalResponseReady]
  simp_all

/-- Witness for C9: a blocked gate, an unblocked gate, and a wakeup
trace whose first wakeup is spurious. -/
theorem curieimu_gate_signal_and_wait_witness :
    (Gate.mk true false).waiterBlocked = true ∧
    (Gate.mk false false).waiterBlocked = false ∧
    waitForResponseLoop [Gate.mk true false, Gate.mk false true]
      = some (Gate.mk false true) ∧
    ((signalResponseReady (Gate.mk true false)).waiterBlocked = false ∧
     signalResponseReady (Gate.mk false false) = Gate.mk false false ∧
     (Gate.mk false true).responseWritten = true) :=
  ⟨rfl, rfl, by decide,
   curieimu_gate_signal_and_wait (Gate.mk true false) (Gate.mk false false)
     (Gate.mk false true) [Gate.mk true false, Gate.mk false true]
     rfl rfl (by decide)⟩

/-- Claim C10: construction with no argument uses the subplatform
offset 512, and no public operation (response processing, the blocking
reads, the queue pops) changes the offset recorded at
construction. -/
theorem curieimu_offset_fixed (s : CurieImuState) (buf p : List Nat)
    (x1 : IMUDataItem) (s1 : CurieImuState) (c : Int) (s2 : CurieImuState)
    (x3 : IMUDataItem) (s3 : CurieImuState)
    (h1 : getShockDetectData s = Except.ok (x1, s1))
    (h2 : getStepCount s = Except.ok (c, s2))
    (h3 : getTapDetectData s = Except.ok (x3, s3)) :
    CurieImuDefaultCtor.subplatformOffset = 512 ∧
    CurieImuDefaultCtor = CurieImuCtor 512 ∧
    (processResponse s buf).subplatformOffset = s.subplatformOffset ∧
    (getAccel s p).2.subplatformOffset = s.subplatformOffset ∧
    (getGyro s p).2.subplatformOffset = s.subplatformOffset ∧
    (getMotion s p).2.subplatformOffset = s.subplatformOffset ∧
    (getTemperature s p).2.subplatformOffset = s.subplatformOffset ∧
    s1.subplatformOffset = s.subplatformOffset ∧
    s2.subplatformOffset = s.subplatformOffset ∧
    s3.subplatformOffset = s.subplatformOffset :=
  ⟨rfl, rfl, processResponse_offset s buf,
   processResponse_offset s (FIRMATA_CURIE_IMU_READ_ACCEL :: p),
   processResponse_offset s (FIRMATA_CURIE_IMU_READ_GYRO :: p),
   processResponse_offset s (FIRMATA_CURIE_IMU_READ_MOTION :: p),
   processResponse_offset s (FIRMATA_CURIE_IMU_READ_TEMP :: p),
   getShockDetectData_offset s x1 s1 h1,
   getStepCount_offset s c s2 h2,
   getTapDetectData_offset s x3 s3 h3⟩

/-- Witness for C10 on a state with one pending event in each
queue. -/
theorem curieimu_offset_fixed_witness :
    getShockDetectData sampleLoadedState
      = Except.ok (({ axis := 0, direction := 1 } : IMUDataItem),
          { sampleLoadedState with m_shockData := [] }) ∧
    getStepCount sampleLoadedState
      = Except.ok ((5 : Int),
          { sampleLoadedState with m_stepData := [] }) ∧
    getTapDetectData sampleLoadedState
      = Except.ok (({ axis := 2, direction := -1 } : IMUDataItem),
          { sampleLoadedState with m_tapData := [] }) ∧
    (CurieImuDefaultCtor.subplatformOffset = 512 ∧
     CurieImuDefaultCtor = CurieImuCtor 512 ∧
     (processResponse sampleLoadedState [0]).subplatformOffset
       = sampleLoadedState.subplatformOffset ∧
     (getAccel sampleLoadedState []).2.subplatformOffset
       = sampleLoadedState.subplatformOffset ∧
     (getGyro sampleLoadedState []).2.subplatformOffset
       = sampleLoadedState.subplatformOffset ∧
     (getMotion sampleLoadedState []).2.subplatformOffset
       = sampleLoadedState.subplatformOffset ∧
     (getTemperature sampleLoadedState []).2.subplatformOffset
       = sampleLoadedState.subplatformOffset ∧
     ({ sampleLoadedState with m_shockData := [] }
        : CurieImuState).subplatformOffset
       = sampleLoadedState.subplatformOffset ∧
     ({ sampleLoadedState with m_stepData := [] }
        : CurieImuState).subplatformOffset
       = sampleLoadedState.subplatformOffset ∧
     ({ sampleLoadedState with m_tapData := [] }
        : CurieImuState).subplatformOffset
       = sampleLoadedState.subplatformOffset) :=
  ⟨rfl, rfl, rfl,
   curieimu_offset_fixed sampleLoadedState [0] []
     { axis := 0, direction := 1 }
     { sampleLoadedState with m_shockData := [] }
     5 { sampleLoadedState with m_stepData := [] }
     { axis := 2, direction := -1 }
     { sampleLoadedState with m_tapData := [] }
     rfl rfl rfl⟩
